import Mathlib

/-!
Shallow embedding of `collect_weather.py` (Shenzhen weather collector).

Modelling conventions:
* Python scalar values that can appear in a parsed-JSON dict or in a row dict
  are modelled by `PyVal` (`None`, `int`, `float`, `str`).  Floats are modelled
  as exact rationals `ℚ`; every concrete computation the development relies on
  (36.0/3.6, two-decimal rounding of 114.0576 and 22.5431) gives the same
  answer under IEEE-754 doubles as under exact rational arithmetic.
* Fallible conversions return `Option`.
* The HTTP environment of a retry loop is a function `Nat → Outcome` giving
  the outcome of each attempt `i`; the loop itself is structural recursion on
  the remaining attempt count (`fuel = retries - i`, so the source test
  `i == retries - 1` is `fuel = 1`).
* `requests.get`/`r.json()` failures and HTTP statuses are part of the
  attempt outcome; `time.sleep(2)` is recorded in a `sleeps` list; a value
  propagated by Python `raise` is `PyResult.raised`.
-/

/-- A Python scalar value as it appears in row dicts / parsed JSON. -/
inductive PyVal where
  | none
  | vint (n : ℤ)
  | vfloat (q : ℚ)
  | vstr (s : String)
deriving DecidableEq

/-- Numeric value of a list of decimal digit characters. -/
def digitsVal (cs : List Char) : Nat :=
  cs.foldl (fun a c => a * 10 + (c.toNat - '0'.toNat)) 0

/-- Strip leading and trailing whitespace, as Python `float`/`int` do. -/
def trimChars (cs : List Char) : List Char :=
  ((cs.dropWhile Char.isWhitespace).reverse.dropWhile Char.isWhitespace).reverse

/-- Parse an unsigned decimal mantissa (`digits`, `digits.digits`, `.digits`,
`digits.`), returning its exact rational value and the unconsumed rest.
(The value is assembled with `mkRat` over integer digit arithmetic, which is
the exact value of the decimal literal.) -/
def parseMantissa (cs : List Char) : Option (ℚ × List Char) :=
  let ip := cs.takeWhile Char.isDigit
  let r1 := cs.dropWhile Char.isDigit
  match r1 with
  | '.' :: r2 =>
    let fp := r2.takeWhile Char.isDigit
    let r3 := r2.dropWhile Char.isDigit
    if ip.isEmpty && fp.isEmpty then Option.none
    else some (mkRat (digitsVal ip * 10 ^ fp.length + digitsVal fp) (10 ^ fp.length), r3)
  | _ => if ip.isEmpty then Option.none else some (mkRat (digitsVal ip) 1, r1)

/-- Apply an exponent suffix (after the `e`/`E`) to a mantissa: multiply or
divide the exact value by the corresponding power of ten. -/
def applyExp (m : ℚ) (cs : List Char) : Option ℚ :=
  match cs with
  | '+' :: ds =>
    if !ds.isEmpty && ds.all Char.isDigit then some (mkRat (m.num * 10 ^ digitsVal ds) m.den)
    else Option.none
  | '-' :: ds =>
    if !ds.isEmpty && ds.all Char.isDigit then some (mkRat m.num (m.den * 10 ^ digitsVal ds))
    else Option.none
  | ds =>
    if !ds.isEmpty && ds.all Char.isDigit then some (mkRat (m.num * 10 ^ digitsVal ds) m.den)
    else Option.none

/-- Unsigned float literal: mantissa with optional exponent. -/
def pyFloatUnsigned (cs : List Char) : Option ℚ :=
  match parseMantissa cs with
  | Option.none => Option.none
  | some (m, rest) =>
    match rest with
    | [] => some m
    | 'e' :: es => applyExp m es
    | 'E' :: es => applyExp m es
    | _ => Option.none

/-- Python `float(s)` on a string (decimal forms with optional sign,
fraction and exponent; the exotic `inf`/`nan`/underscore forms are outside
the inputs this program ever sees and are not modelled). -/
def pyFloatOfChars (cs0 : List Char) : Option ℚ :=
  match trimChars cs0 with
  | '+' :: rest => pyFloatUnsigned rest
  | '-' :: rest => (pyFloatUnsigned rest).map Neg.neg
  | cs => pyFloatUnsigned cs

/-- Python `float(s)` for a `String`. -/
def pyFloatParse (s : String) : Option ℚ :=
  pyFloatOfChars s.data

/-- Python `int(s)` on a string: optional sign, all digits. -/
def pyIntParse (s : String) : Option ℤ :=
  match trimChars s.data with
  | '+' :: rest =>
    if !rest.isEmpty && rest.all Char.isDigit then some (digitsVal rest) else Option.none
  | '-' :: rest =>
    if !rest.isEmpty && rest.all Char.isDigit then some (-(digitsVal rest : ℤ)) else Option.none
  | cs =>
    if !cs.isEmpty && cs.all Char.isDigit then some (digitsVal cs) else Option.none

/-- Truncation toward zero, as Python `int(float)` (`ℤ` division truncates
toward zero). -/
def ratTrunc (q : ℚ) : ℤ :=
  q.num / (q.den : ℤ)

/-- Python `float(x)` on an arbitrary value; `Option.none` means it raised. -/
def pyFloatOf : PyVal → Option ℚ
  | PyVal.vfloat q => some q
  | PyVal.vint n => some (mkRat n 1)
  | PyVal.vstr s => pyFloatParse s
  | PyVal.none => Option.none

/-- Python `int(x)` on an arbitrary value; `Option.none` means it raised. -/
def pyToInt : PyVal → Option ℤ
  | PyVal.vint n => some n
  | PyVal.vfloat q => some (ratTrunc q)
  | PyVal.vstr s => pyIntParse s
  | PyVal.none => Option.none

/-- Python `str(x)`.  (For floats Python prints the shortest re-reading
decimal form; this development never relies on the float case, and renders
it as the rational's own string form.) -/
def pyStr : PyVal → String
  | PyVal.none => "None"
  | PyVal.vstr s => s
  | PyVal.vint n => toString n
  | PyVal.vfloat q => toString q

/-- Python truthiness for the values that occur here. -/
def pyTruthy : PyVal → Bool
  | PyVal.none => false
  | PyVal.vstr s => !(s == "")
  | PyVal.vint n => !(n == 0)
  | PyVal.vfloat q => !(q == 0)

/-- Python `a or b`. -/
def pyOr (a b : PyVal) : PyVal :=
  if pyTruthy a then a else b

/-- `safe_float(x)`: `float(x)` with every exception mapped to the default
`None` (the script always uses the default). -/
def safe_float : PyVal → Option ℚ
  | x => pyFloatOf x

/-- `WMO_WEATHER_CODES`: the static WMO code table (dict, as an assoc list). -/
def WMO_WEATHER_CODES : List (ℤ × String) :=
  [(0, "晴"), (1, "基本晴"), (2, "局部多云"), (3, "多云"),
   (45, "雾"), (48, "雾凇"),
   (51, "小毛毛雨"), (53, "中毛毛雨"), (55, "大毛毛雨"),
   (56, "小冻毛毛雨"), (57, "大冻毛毛雨"),
   (61, "小雨"), (63, "中雨"), (65, "大雨"),
   (66, "小冻雨"), (67, "大冻雨"),
   (71, "小雪"), (73, "中雪"), (75, "大雪"),
   (77, "雪粒"),
   (80, "小阵雨"), (81, "中阵雨"), (82, "大阵雨"),
   (85, "小阵雪"), (86, "大阵雪"),
   (95, "雷阵雨"), (96, "雷阵雨伴轻微冰雹"), (99, "雷阵雨伴大冰雹")]

/-- `decode_weather(code)`: `int(code)` then table lookup with
`未知(<code>)` fallback; if the conversion raises, `str(code)` for
non-`None` input and `""` for `None`. -/
def decode_weather (code : PyVal) : String :=
  match pyToInt code with
  | some n => (WMO_WEATHER_CODES.lookup n).getD ("未知(" ++ toString n ++ ")")
  | Option.none =>
    match code with
    | PyVal.none => ""
    | c => pyStr c

/-- Environment-sourced configuration (lines 12, 18-22 of the source).  The
fields that exist are exactly: display location name, the QWeather response
language and the QWeather unit system.  (The API key and the location string
are passed to `fetch_qweather` at the call site; there is no configurable
API host.)  Coordinates `LAT`/`LON` are the fixed constants below. -/
structure Config where
  location_name : String
  qweather_lang : String
  qweather_unit : String
deriving DecidableEq

/-- The defaults used when the environment sets nothing. -/
def defaultConfig : Config :=
  ⟨"深圳市", "zh", "m"⟩

/-- `LAT, LON = 22.543096, 114.057865` (exact decimal values). -/
def LAT : ℚ := mkRat 22543096 1000000

def LON : ℚ := mkRat 114057865 1000000

/-- A civil datetime in the fixed Asia/Shanghai zone, second precision
(`datetime.now(tz=CN_TZ).replace(microsecond=0)`). -/
structure DateTime where
  year : Nat
  month : Nat
  day : Nat
  hour : Nat
  minute : Nat
  second : Nat
deriving DecidableEq

/-- Zero-pad a numeral to two digits. -/
def pad2 (n : Nat) : String :=
  if n < 10 then "0" ++ toString n else toString n

/-- `now_cn_iso()`: the ISO-8601 rendering of the current Beijing time,
e.g. `2025-01-01T08:00:00+08:00` (the `+08:00` offset of `CN_TZ` is fixed). -/
def now_cn_iso (dt : DateTime) : String :=
  toString dt.year ++ "-" ++ pad2 dt.month ++ "-" ++ pad2 dt.day ++ "T" ++
    pad2 dt.hour ++ ":" ++ pad2 dt.minute ++ ":" ++ pad2 dt.second ++ "+08:00"

/-- One normalized row (the dict built by either provider; all values are
Python scalars). -/
structure Row where
  ts_iso : PyVal
  ts_obs_iso : PyVal
  location_name : PyVal
  provider : PyVal
  temp_c : PyVal
  precip_mm_1h : PyVal
  humidity_pct : PyVal
  wind_speed_mps : PyVal
  wind_dir_deg : PyVal
  pressure_hpa : PyVal
  weather_code_or_text : PyVal
  weather_desc : PyVal
deriving DecidableEq

/-- Wrap an optional float back into a Python value (a `safe_float` result
stored in a row dict). -/
def optToPy : Option ℚ → PyVal
  | some q => PyVal.vfloat q
  | Option.none => PyVal.none

/-- The fixed `fieldnames` list of `main`. -/
def fieldnames : List String :=
  ["ts_iso", "ts_obs_iso", "location_name", "provider",
   "temp_c", "precip_mm_1h", "humidity_pct",
   "wind_speed_mps", "wind_dir_deg", "pressure_hpa",
   "weather_code_or_text", "weather_desc"]

/-- `row_dict.get(k, "")`: dictionary lookup on a row, with the writer's
default of the empty string for a missing key. -/
def rowGet (r : Row) (k : String) : PyVal :=
  if k = "ts_iso" then r.ts_iso
  else if k = "ts_obs_iso" then r.ts_obs_iso
  else if k = "location_name" then r.location_name
  else if k = "provider" then r.provider
  else if k = "temp_c" then r.temp_c
  else if k = "precip_mm_1h" then r.precip_mm_1h
  else if k = "humidity_pct" then r.humidity_pct
  else if k = "wind_speed_mps" then r.wind_speed_mps
  else if k = "wind_dir_deg" then r.wind_dir_deg
  else if k = "pressure_hpa" then r.pressure_hpa
  else if k = "weather_code_or_text" then r.weather_code_or_text
  else if k = "weather_desc" then r.weather_desc
  else PyVal.vstr ""

/-- How `csv.DictWriter` renders one cell: `None` becomes the empty string,
strings are written as-is, other scalars via `str`. -/
def cellStr : PyVal → String
  | PyVal.none => ""
  | v => pyStr v

/-- A CSV file as a list of records (each a list of cell strings); the
filesystem slot is `Option` (`Option.none` = the path does not exist). -/
def rowCells (fns : List String) (r : Row) : List String :=
  fns.map (fun k => cellStr (rowGet r k))

/-- `ensure_csv_header(path, fieldnames)`: create the file with a single
header record when the path does not exist; otherwise leave it alone. -/
def ensure_csv_header (fs : Option (List (List String))) (fns : List String) :
    List (List String) :=
  match fs with
  | Option.none => [fns]
  | some f => f

/-- `write_csv_row(row_dict, fieldnames)`: ensure the header, then append the
row's cells in `fieldnames` order (`{k: row_dict.get(k, "") for k in fieldnames}`). -/
def write_csv_row (fs : Option (List (List String))) (r : Row) (fns : List String) :
    List (List String) :=
  ensure_csv_header fs fns ++ [rowCells fns r]


/-- Round-half-even of `100 * q` to an integer: the rounding Python's
`f"{x:.2f}"` format applies at the second decimal place (computed on the
numerator/denominator so that it is kernel-evaluable; `Int.fdiv` is floor
division and `q.den > 0`). -/
def roundDec2 (q : ℚ) : ℤ :=
  let n := 100 * q.num
  let d := (q.den : ℤ)
  let f := Int.fdiv n d
  let r2 := 2 * (n - f * d)
  if r2 < d then f
  else if d < r2 then f + 1
  else if f % 2 = 0 then f else f + 1

/-- `f"{x:.2f}"`: fixed-point rendering with exactly two decimals (sign taken
from the value, as Python renders `-0.001` as `-0.00`). -/
def fmt2 (q : ℚ) : String :=
  let n := roundDec2 q
  let body := toString (n.natAbs / 100) ++ "." ++ pad2 (n.natAbs % 100)
  if q.num < 0 then "-" ++ body else body

/-- Python `location.split(",")`. -/
def splitOnComma : List Char → List (List Char)
  | [] => [[]]
  | c :: cs =>
    if c = ',' then [] :: splitOnComma cs
    else
      match splitOnComma cs with
      | [] => [[c]]
      | g :: gs => (c :: g) :: gs

/-- Lines 113-119 of `fetch_qweather`: try to read the location as
`"lon,lat"`, reformat both coordinates with two decimals; on any failure
(wrong number of comma-separated parts, or a part `float` cannot parse)
keep the string unchanged and treat it as a LocationID. -/
def normalize_qweather_location (location : String) : String :=
  match splitOnComma location.data with
  | [a, b] =>
    match pyFloatOfChars a, pyFloatOfChars b with
    | some qa, some qb => fmt2 qa ++ "," ++ fmt2 qb
    | _, _ => location
  | _ => location

/-- The guard of the normalization: the location string parses as exactly two
comma-separated numbers. -/
def parsesTwoNums (s : String) : Bool :=
  match splitOnComma s.data with
  | [a, b] => (pyFloatOfChars a).isSome && (pyFloatOfChars b).isSome
  | _ => false

/-- The single HTTP request `fetch_qweather` issues per attempt: lines
121-124 build the URL (key, normalized location, lang and unit as query
parameters on the fixed host `devapi.qweather.com`), and line 128 calls
`requests.get(url, timeout=timeout)` with no `headers` argument. -/
structure HttpRequest where
  url : String
  headers : List (String × String)
deriving DecidableEq

def qweather_request (cfg : Config) (api_key location : String) : HttpRequest :=
  { url := "https://devapi.qweather.com/v7/weather/now?key=" ++ api_key ++
      "&location=" ++ normalize_qweather_location location ++
      "&lang=" ++ cfg.qweather_lang ++ "&unit=" ++ cfg.qweather_unit
    headers := [] }

/-- `kmh_to_mps(x)` (defined inside `fetch_qweather`): `float(x) / 3.6`,
with any exception (i.e. an unparsable `x`) mapped to `None`. -/
def kmh_to_mps (x : PyVal) : Option ℚ :=
  match pyFloatOf x with
  | some q => some (q / 3.6)
  | Option.none => Option.none


/-- The result of running a piece of Python code: a value, or an exception
propagating to the caller (`raised e`, where `e` identifies the exception
object). -/
inductive PyResult (α : Type) where
  | ok (a : α)
  | raised (e : Nat)
deriving DecidableEq

/-- The `current` object of an Open-Meteo response (`data.get("current", {})`;
a missing key is `PyVal.none`, which is also what `.get` yields for an
absent field). -/
structure MCur where
  temperature_2m : PyVal
  precipitation : PyVal
  relative_humidity_2m : PyVal
  wind_speed_10m : PyVal
  wind_direction_10m : PyVal
  pressure_msl : PyVal
  weather_code : PyVal
deriving DecidableEq

/-- What the environment does on one Open-Meteo attempt: either some
exception escapes `requests.get` / `raise_for_status` / `r.json()` (timeouts,
transport errors and non-2xx statuses all surface as exceptions here), or a
success response whose JSON has a `current` object. -/
inductive MOutcome where
  | exn (e : Nat)
  | success (cur : MCur)
deriving DecidableEq

/-- Lines 86-99: the row built from a successful Open-Meteo response. -/
def mkOpenMeteoRow (cfg : Config) (dt : DateTime) (cur : MCur) : Row :=
  { ts_iso := PyVal.vstr (now_cn_iso dt)
    ts_obs_iso := PyVal.vstr ""
    location_name := PyVal.vstr cfg.location_name
    provider := PyVal.vstr "open-meteo"
    temp_c := optToPy (safe_float cur.temperature_2m)
    precip_mm_1h := optToPy (safe_float cur.precipitation)
    humidity_pct := optToPy (safe_float cur.relative_humidity_2m)
    wind_speed_mps := optToPy (safe_float cur.wind_speed_10m)
    wind_dir_deg := optToPy (safe_float cur.wind_direction_10m)
    pressure_hpa := optToPy (safe_float cur.pressure_msl)
    weather_code_or_text := PyVal.vstr (pyStr cur.weather_code)
    weather_desc := PyVal.vstr (decode_weather cur.weather_code) }

/-- The observable trace of one call of a fetch routine: the returned (or
raised) value, how many HTTP requests were issued, and the seconds slept
between attempts. -/
structure FetchRun where
  result : PyResult (Option Row)
  requests : Nat
  sleeps : List Nat
deriving DecidableEq

/-- The shared shape of a retry continuation: one more request was made
before `rest`, after a 2-second sleep. -/
def retryStep (rest : FetchRun) : FetchRun :=
  ⟨rest.result, rest.requests + 1, 2 :: rest.sleeps⟩

/-- Lines 80-104, the retry loop of `fetch_open_meteo`.  `fuel` is the number
of attempts left (`retries - i`), so the source's last-attempt test
`i == retries - 1` is `fuel = 1`; when the range is empty the function falls
off the end and returns `None`.  On success the row is returned; on an
exception the loop re-raises at the last attempt and otherwise sleeps 2
seconds and retries. -/
def open_meteo_loop (cfg : Config) (dt : DateTime) (att : Nat → MOutcome) :
    Nat → Nat → FetchRun
  | 0, _ => ⟨PyResult.ok Option.none, 0, []⟩
  | fuel + 1, i =>
    match att i with
    | MOutcome.success cur => ⟨PyResult.ok (some (mkOpenMeteoRow cfg dt cur)), 1, []⟩
    | MOutcome.exn e =>
      if fuel = 0 then ⟨PyResult.raised e, 1, []⟩
      else retryStep (open_meteo_loop cfg dt att fuel (i + 1))

/-- `fetch_open_meteo(lat, lon, retries, timeout)` (the coordinates only
shape the request URL and the timeout is part of each attempt's outcome, so
neither influences the observable trace). -/
def fetch_open_meteo (cfg : Config) (lat lon : ℚ) (retries : ℤ)
    (att : Nat → MOutcome) (dt : DateTime) : FetchRun :=
  open_meteo_loop cfg dt att retries.toNat 0

/-- The `now` object of a QWeather response; `obsTime` is read with
`now.get("obsTime", "")`, so presence and value are distinguished, the other
fields with plain `.get` (missing key = `None`). -/
structure QNow where
  obsTime : Option PyVal
  temp : PyVal
  precip : PyVal
  humidity : PyVal
  windSpeed : PyVal
  wind360 : PyVal
  pressure : PyVal
  icon : PyVal
  text : PyVal
deriving DecidableEq

/-- A parsed QWeather JSON body: the application-level `code` (`j.get("code")`,
any scalar; a missing key is `None`) and the `now` object. -/
structure QBody where
  code : PyVal
  now : QNow
deriving DecidableEq

/-- What the environment does on one QWeather attempt: an exception from
`requests.get` itself, or a response with an HTTP status and a JSON body
(`Option.none` body = `r.json()` raises). -/
inductive QOutcome where
  | exn
  | resp (status : Nat) (body : Option QBody)
deriving DecidableEq

/-- Lines 151-164: the row built from a successful QWeather response. -/
def mkQweatherRow (cfg : Config) (dt : DateTime) (n : QNow) : Row :=
  { ts_iso := PyVal.vstr (now_cn_iso dt)
    ts_obs_iso := n.obsTime.getD (PyVal.vstr "")
    location_name := PyVal.vstr cfg.location_name
    provider := PyVal.vstr "qweather"
    temp_c := optToPy (safe_float n.temp)
    precip_mm_1h := optToPy (safe_float n.precip)
    humidity_pct := optToPy (safe_float n.humidity)
    wind_speed_mps := optToPy (kmh_to_mps n.windSpeed)
    wind_dir_deg := optToPy (safe_float n.wind360)
    pressure_hpa := optToPy (safe_float n.pressure)
    weather_code_or_text := pyOr n.icon n.text
    weather_desc := n.text }

/-- How one QWeather attempt resolves without retrying: `some r` means the
function returns `r` on this attempt (success, or the non-retryable
application-level code path of lines 138-142); `Option.none` means the
attempt failed transiently (non-200 HTTP status, lines 130-135, or an
exception, lines 166-170) and the loop retries or gives up. -/
def qAttemptResult (cfg : Config) (dt : DateTime) : QOutcome →
    Option (PyResult (Option Row))
  | QOutcome.exn => Option.none
  | QOutcome.resp status body =>
    if status ≠ 200 then Option.none
    else
      match body with
      | Option.none => Option.none
      | some b =>
        if b.code ≠ PyVal.vstr "200" then some (PyResult.ok Option.none)
        else some (PyResult.ok (some (mkQweatherRow cfg dt b.now)))

/-- Lines 126-170, the retry loop of `fetch_qweather`.  A transient attempt
failure returns `None` at the last attempt (`fuel = 1`, i.e.
`i == retries - 1`) and otherwise sleeps 2 seconds and retries; the
non-transient resolutions return at once.  The `except` handler never
re-raises, so no branch produces `PyResult.raised`. -/
def qweather_loop (cfg : Config) (dt : DateTime) (att : Nat → QOutcome) :
    Nat → Nat → FetchRun
  | 0, _ => ⟨PyResult.ok Option.none, 0, []⟩
  | fuel + 1, i =>
    match qAttemptResult cfg dt (att i) with
    | some res => ⟨res, 1, []⟩
    | Option.none =>
      if fuel = 0 then ⟨PyResult.ok Option.none, 1, []⟩
      else retryStep (qweather_loop cfg dt att fuel (i + 1))

/-- `fetch_qweather(api_key, location, retries, timeout)`: lines 107-170.
An empty key skips the provider before any request; otherwise the location
is normalized into the URL (see `qweather_request`) and the retry loop runs. -/
def fetch_qweather (cfg : Config) (api_key location : String) (retries : ℤ)
    (att : Nat → QOutcome) (dt : DateTime) : FetchRun :=
  if api_key = "" then ⟨PyResult.ok Option.none, 0, []⟩
  else qweather_loop cfg dt att retries.toNat 0

/-- The status lines `main` prints, one per provider outcome. -/
inductive LogEvent where
  | omOk (row : Row)
  | omErr (e : Nat)
  | omErrAttr
  | qwOk (row : Row)
deriving DecidableEq

/-- The observable outcome of one `main()` invocation. -/
structure MainRun where
  fsFinal : Option (List (List String))
  logs : List LogEvent
  qrun : FetchRun
deriving DecidableEq

/-- Lines 173-193, `main()`: fetch Open-Meteo (default `retries=3`), append
and report on success, catch and report any raised error; then fetch QWeather
(also `retries=3`) and append and report when it returned a row.  The corner
where `fetch_open_meteo` returns `None` (empty retry range) still creates the
header, because `ensure_csv_header` runs before the row dict is read; the
subsequent `None.get` `AttributeError` is caught by the same handler
(`LogEvent.omErrAttr`). -/
def main_run (cfg : Config) (api_key location : String) (matt : Nat → MOutcome)
    (qatt : Nat → QOutcome) (dt : DateTime)
    (fs : Option (List (List String))) : PyResult MainRun :=
  let m := fetch_open_meteo cfg LAT LON 3 matt dt
  let step1 : Option (List (List String)) × List LogEvent :=
    match m.result with
    | PyResult.ok (some row1) => (some (write_csv_row fs row1 fieldnames), [LogEvent.omOk row1])
    | PyResult.ok Option.none => (some (ensure_csv_header fs fieldnames), [LogEvent.omErrAttr])
    | PyResult.raised e => (fs, [LogEvent.omErr e])
  let q := fetch_qweather cfg api_key location 3 qatt dt
  match q.result with
  | PyResult.raised e => PyResult.raised e
  | PyResult.ok Option.none => PyResult.ok ⟨step1.1, step1.2, q⟩
  | PyResult.ok (some row2) =>
    PyResult.ok ⟨some (write_csv_row step1.1 row2 fieldnames), step1.2 ++ [LogEvent.qwOk row2], q⟩

/-- A row cell value that is a valid float or explicitly absent (the
invariant the spec states for the six numeric fields). -/
def numericOrAbsent (v : PyVal) : Prop :=
  v = PyVal.none ∨ ∃ q, v = PyVal.vfloat q

/-- A fixed sample collection instant, used to instantiate theorems. -/
def dt0 : DateTime :=
  ⟨2025, 1, 1, 8, 30, 0⟩

/-- An Open-Meteo `current` object with every field missing. -/
def curNone : MCur :=
  ⟨PyVal.none, PyVal.none, PyVal.none, PyVal.none, PyVal.none, PyVal.none, PyVal.none⟩

/-- A QWeather `now` object with every field missing. -/
def qnowNone : QNow :=
  ⟨Option.none, PyVal.none, PyVal.none, PyVal.none, PyVal.none, PyVal.none, PyVal.none,
   PyVal.none, PyVal.none⟩

theorem optToPy_numericOrAbsent (o : Option ℚ) : numericOrAbsent (optToPy o) := by
  cases o with
  | none => exact Or.inl rfl
  | some q => exact Or.inr ⟨q, rfl⟩

theorem now_cn_iso_ne_empty (dt : DateTime) : now_cn_iso dt ≠ "" := by
  intro h
  have hl := congrArg String.length h
  rw [now_cn_iso] at hl
  simp only [String.length_append] at hl
  have h6 : ("+08:00" : String).length = 6 := rfl
  rw [h6] at hl
  simp at hl

theorem qAttemptResult_exn (cfg : Config) (dt : DateTime) :
    qAttemptResult cfg dt QOutcome.exn = Option.none := rfl

theorem qAttemptResult_non200 (cfg : Config) (dt : DateTime) (s : Nat) (b : Option QBody)
    (hs : s ≠ 200) : qAttemptResult cfg dt (QOutcome.resp s b) = Option.none := by
  simp only [qAttemptResult]
  rw [if_pos hs]

theorem qAttemptResult_badcode (cfg : Config) (dt : DateTime) (b : QBody)
    (hb : b.code ≠ PyVal.vstr "200") :
    qAttemptResult cfg dt (QOutcome.resp 200 (some b)) = some (PyResult.ok Option.none) := by
  simp only [qAttemptResult]
  rw [if_neg (by omega : ¬(200 : Nat) ≠ 200), if_pos hb]

theorem qAttemptResult_is_ok (cfg : Config) (dt : DateTime) (o : QOutcome)
    (res : PyResult (Option Row)) (h : qAttemptResult cfg dt o = some res) :
    ∃ r, res = PyResult.ok r := by
  cases o with
  | exn => cases h
  | resp status body =>
    simp only [qAttemptResult] at h
    split at h
    · cases h
    · split at h
      · cases h
      · split at h
        · exact ⟨Option.none, (Option.some.inj h).symm⟩
        · exact ⟨_, (Option.some.inj h).symm⟩

theorem qweather_loop_ok (cfg : Config) (dt : DateTime) (att : Nat → QOutcome) :
    ∀ fuel i, ∃ o, (qweather_loop cfg dt att fuel i).result = PyResult.ok o := by
  intro fuel
  induction fuel with
  | zero => exact fun i => ⟨Option.none, rfl⟩
  | succ f ih =>
    intro i
    rcases h : qAttemptResult cfg dt (att i) with _ | res
    · by_cases hf : f = 0
      · subst hf
        simp [qweather_loop, h]
      · simp only [qweather_loop, h, if_neg hf, retryStep]
        exact ih (i + 1)
    · obtain ⟨r, rfl⟩ := qAttemptResult_is_ok cfg dt (att i) res h
      simp [qweather_loop, h]

theorem qweather_loop_exhaust (cfg : Config) (dt : DateTime) (att : Nat → QOutcome) :
    ∀ fuel i, 1 ≤ fuel →
    (∀ j, j < fuel → qAttemptResult cfg dt (att (i + j)) = Option.none) →
    qweather_loop cfg dt att fuel i =
      ⟨PyResult.ok Option.none, fuel, List.replicate (fuel - 1) 2⟩ := by
  intro fuel
  induction fuel with
  | zero => omega
  | succ f ih =>
    intro i _ htr
    have h0 : qAttemptResult cfg dt (att i) = Option.none := by
      have := htr 0 (by omega)
      rwa [Nat.add_zero] at this
    by_cases hf : f = 0
    · subst hf
      simp [qweather_loop, h0]
    · have hrest := ih (i + 1) (by omega) (fun j hj => by
        have := htr (j + 1) (by omega)
        rwa [show i + (j + 1) = i + 1 + j by omega] at this)
      simp only [qweather_loop, h0, if_neg hf, retryStep, hrest]
      obtain ⟨f', rfl⟩ : ∃ f', f = f' + 1 := ⟨f - 1, by omega⟩
      simp [List.replicate_succ]

theorem qweather_loop_immediate (cfg : Config) (dt : DateTime) (att : Nat → QOutcome)
    (res : PyResult (Option Row)) :
    ∀ k fuel i, k < fuel →
    (∀ j, j < k → qAttemptResult cfg dt (att (i + j)) = Option.none) →
    qAttemptResult cfg dt (att (i + k)) = some res →
    qweather_loop cfg dt att fuel i = ⟨res, k + 1, List.replicate k 2⟩ := by
  intro k
  induction k with
  | zero =>
    intro fuel i hk _ hres
    obtain ⟨f, rfl⟩ : ∃ f, fuel = f + 1 := ⟨fuel - 1, by omega⟩
    rw [Nat.add_zero] at hres
    simp [qweather_loop, hres]
  | succ k ih =>
    intro fuel i hk htr hres
    obtain ⟨f, rfl⟩ : ∃ f, fuel = f + 1 := ⟨fuel - 1, by omega⟩
    have h0 : qAttemptResult cfg dt (att i) = Option.none := by
      have := htr 0 (by omega)
      rwa [Nat.add_zero] at this
    have hf : f ≠ 0 := by omega
    have hrest := ih f (i + 1) (by omega)
      (fun j hj => by
        have := htr (j + 1) (by omega)
        rwa [show i + (j + 1) = i + 1 + j by omega] at this)
      (by rwa [show i + 1 + k = i + (k + 1) by omega])
    simp only [qweather_loop, h0, if_neg hf, retryStep, hrest]
    simp [List.replicate_succ]

theorem qweather_loop_requests_pos (cfg : Config) (dt : DateTime) (att : Nat → QOutcome)
    (fuel i : Nat) (hfuel : 1 ≤ fuel) :
    1 ≤ (qweather_loop cfg dt att fuel i).requests := by
  obtain ⟨f, rfl⟩ : ∃ f, fuel = f + 1 := ⟨fuel - 1, by omega⟩
  rcases h : qAttemptResult cfg dt (att i) with _ | res
  · by_cases hf : f = 0
    · subst hf; simp [qweather_loop, h]
    · simp [qweather_loop, h, if_neg hf, retryStep]
  · simp [qweather_loop, h]

theorem open_meteo_loop_exhaust (cfg : Config) (dt : DateTime) (att : Nat → MOutcome)
    (e : Nat → Nat) :
    ∀ fuel i, 1 ≤ fuel →
    (∀ j, j < fuel → att (i + j) = MOutcome.exn (e (i + j))) →
    open_meteo_loop cfg dt att fuel i =
      ⟨PyResult.raised (e (i + fuel - 1)), fuel, List.replicate (fuel - 1) 2⟩ := by
  intro fuel
  induction fuel with
  | zero => omega
  | succ f ih =>
    intro i _ hexn
    have h0 : att i = MOutcome.exn (e i) := by
      have := hexn 0 (by omega)
      rwa [Nat.add_zero] at this
    by_cases hf : f = 0
    · subst hf
      simp [open_meteo_loop, h0]
    · have hrest := ih (i + 1) (by omega) (fun j hj => by
        have := hexn (j + 1) (by omega)
        rwa [show i + (j + 1) = i + 1 + j by omega] at this)
      simp only [open_meteo_loop, h0, if_neg hf, retryStep, hrest]
      obtain ⟨f', rfl⟩ : ∃ f', f = f' + 1 := ⟨f - 1, by omega⟩
      simp [List.replicate_succ, show i + 1 + (f' + 1) - 1 = i + f' + 1 by omega,
        show i + (f' + 1 + 1) - 1 = i + f' + 1 by omega]

theorem open_meteo_loop_first_success (cfg : Config) (dt : DateTime) (att : Nat → MOutcome)
    (cur : MCur) (fuel i : Nat) (h : att i = MOutcome.success cur) (hfuel : 1 ≤ fuel) :
    open_meteo_loop cfg dt att fuel i =
      ⟨PyResult.ok (some (mkOpenMeteoRow cfg dt cur)), 1, []⟩ := by
  obtain ⟨f, rfl⟩ : ∃ f, fuel = f + 1 := ⟨fuel - 1, by omega⟩
  simp [open_meteo_loop, h]

theorem fetch_qweather_ok (cfg : Config) (key loc : String) (r : ℤ)
    (att : Nat → QOutcome) (dt : DateTime) :
    ∃ o, (fetch_qweather cfg key loc r att dt).result = PyResult.ok o := by
  by_cases hk : key = ""
  · subst hk
    exact ⟨Option.none, by simp [fetch_qweather]⟩
  · simp only [fetch_qweather, if_neg hk]
    exact qweather_loop_ok cfg dt att r.toNat 0

theorem fetch_qweather_requests_pos (cfg : Config) (key loc : String) (r : ℤ)
    (att : Nat → QOutcome) (dt : DateTime) (hk : key ≠ "") (hr : 1 ≤ r) :
    1 ≤ (fetch_qweather cfg key loc r att dt).requests := by
  simp only [fetch_qweather, if_neg hk]
  exact qweather_loop_requests_pos cfg dt att r.toNat 0 (by omega)

/-- C1: `fetch_qweather` never raises to its caller.  With an empty API key
it returns `None` immediately without any HTTP attempt; attempts with a
non-200 HTTP status are transient (2-second waits, `None` only after the
final attempt, all attempts consumed); a 200 response whose application-level
JSON `code` differs from `"200"` returns `None` at once without consuming
further attempts; and when every attempt raises, the call resolves to `None`
after the final attempt. -/
theorem fetch_qweather_error_policy :
    (∀ cfg key loc (r : ℤ) att dt,
      ∃ o, (fetch_qweather cfg key loc r att dt).result = PyResult.ok o) ∧
    (∀ cfg loc (r : ℤ) att dt,
      fetch_qweather cfg "" loc r att dt = ⟨PyResult.ok Option.none, 0, []⟩) ∧
    (∀ cfg key loc (r : ℤ) att dt, key ≠ "" → 1 ≤ r →
      (∀ j, j < r.toNat → ∃ s b, att j = QOutcome.resp s b ∧ s ≠ 200) →
      fetch_qweather cfg key loc r att dt =
        ⟨PyResult.ok Option.none, r.toNat, List.replicate (r.toNat - 1) 2⟩) ∧
    (∀ cfg key loc (r : ℤ) att dt (k : Nat) b, key ≠ "" → k < r.toNat →
      (∀ j, j < k → qAttemptResult cfg dt (att j) = Option.none) →
      att k = QOutcome.resp 200 (some b) → b.code ≠ PyVal.vstr "200" →
      fetch_qweather cfg key loc r att dt =
        ⟨PyResult.ok Option.none, k + 1, List.replicate k 2⟩) ∧
    (∀ cfg key loc (r : ℤ) att dt, key ≠ "" → 1 ≤ r →
      (∀ j, j < r.toNat → att j = QOutcome.exn) →
      fetch_qweather cfg key loc r att dt =
        ⟨PyResult.ok Option.none, r.toNat, List.replicate (r.toNat - 1) 2⟩) := by
  refine ⟨fun cfg key loc r att dt => fetch_qweather_ok cfg key loc r att dt,
    fun cfg loc r att dt => by simp [fetch_qweather], ?_, ?_, ?_⟩
  · intro cfg key loc r att dt hk hr htr
    simp only [fetch_qweather, if_neg hk]
    refine qweather_loop_exhaust cfg dt att r.toNat 0 (by omega) ?_
    intro j hj
    obtain ⟨s, b, hab, hs⟩ := htr j hj
    rw [Nat.zero_add, hab]
    exact qAttemptResult_non200 cfg dt s b hs
  · intro cfg key loc r att dt k b hk hkr htr hatt hb
    simp only [fetch_qweather, if_neg hk]
    refine qweather_loop_immediate cfg dt att (PyResult.ok Option.none) k r.toNat 0 hkr
      (fun j hj => by rw [Nat.zero_add]; exact htr j hj) ?_
    rw [Nat.zero_add, hatt]
    exact qAttemptResult_badcode cfg dt b hb
  · intro cfg key loc r att dt hk hr htr
    simp only [fetch_qweather, if_neg hk]
    refine qweather_loop_exhaust cfg dt att r.toNat 0 (by omega) ?_
    intro j hj
    rw [Nat.zero_add, htr j hj]
    exact qAttemptResult_exn cfg dt

theorem fetch_qweather_error_policy_witness :
    fetch_qweather defaultConfig "k" "440300" 3 (fun _ => QOutcome.resp 429 Option.none) dt0 =
      ⟨PyResult.ok Option.none, (3 : ℤ).toNat, List.replicate ((3 : ℤ).toNat - 1) 2⟩ ∧
    fetch_qweather defaultConfig "k" "440300" 3
      (fun _ => QOutcome.resp 200 (some ⟨PyVal.vstr "401", qnowNone⟩)) dt0 =
      ⟨PyResult.ok Option.none, 0 + 1, List.replicate 0 2⟩ ∧
    fetch_qweather defaultConfig "k" "440300" 3 (fun _ => QOutcome.exn) dt0 =
      ⟨PyResult.ok Option.none, (3 : ℤ).toNat, List.replicate ((3 : ℤ).toNat - 1) 2⟩ :=
  ⟨fetch_qweather_error_policy.2.2.1 defaultConfig "k" "440300" 3 _ dt0 (by decide) (by omega)
      (fun j hj => ⟨429, Option.none, rfl, by omega⟩),
   fetch_qweather_error_policy.2.2.2.1 defaultConfig "k" "440300" 3 _ dt0 0
      ⟨PyVal.vstr "401", qnowNone⟩ (by decide) (by decide)
      (fun j hj => absurd hj (by omega)) rfl (by decide),
   fetch_qweather_error_policy.2.2.2.2 defaultConfig "k" "440300" 3 _ dt0 (by decide) (by omega)
      (fun j hj => rfl)⟩

/-- C2: when all three (default) Open-Meteo attempts fail, `fetch_open_meteo`
raises the last attempt's error after exactly 3 attempts with a 2-second wait
between consecutive attempts — it never silently returns `None` — and `main`
catches the failure, reports it, still invokes the QWeather provider (its
call issues at least one request when a key is configured), and the run
completes normally. -/
theorem fetch_open_meteo_exhaust_and_main :
    ∀ cfg key loc (e : Nat → Nat) matt qatt dt fs,
    (∀ j, j < 3 → matt j = MOutcome.exn (e j)) → key ≠ "" →
    fetch_open_meteo cfg LAT LON 3 matt dt = ⟨PyResult.raised (e 2), 3, [2, 2]⟩ ∧
    ∃ m, main_run cfg key loc matt qatt dt fs = PyResult.ok m ∧
      LogEvent.omErr (e 2) ∈ m.logs ∧
      m.qrun = fetch_qweather cfg key loc 3 qatt dt ∧
      1 ≤ m.qrun.requests := by
  intro cfg key loc e matt qatt dt fs hm hk
  have hf : fetch_open_meteo cfg LAT LON 3 matt dt = ⟨PyResult.raised (e 2), 3, [2, 2]⟩ := by
    have h := open_meteo_loop_exhaust cfg dt matt e 3 0 (by omega)
      (fun j hj => by rw [Nat.zero_add]; exact hm j hj)
    simp only [fetch_open_meteo]
    simpa using h
  refine ⟨hf, ?_⟩
  obtain ⟨o, ho⟩ := fetch_qweather_ok cfg key loc 3 qatt dt
  have hreq := fetch_qweather_requests_pos cfg key loc 3 qatt dt hk (by omega)
  cases o with
  | none =>
    refine ⟨⟨fs, [LogEvent.omErr (e 2)], fetch_qweather cfg key loc 3 qatt dt⟩, ?_, by simp,
      rfl, hreq⟩
    simp only [main_run, hf, ho]
  | some row2 =>
    refine ⟨⟨some (write_csv_row fs row2 fieldnames),
      [LogEvent.omErr (e 2)] ++ [LogEvent.qwOk row2],
      fetch_qweather cfg key loc 3 qatt dt⟩, ?_, by simp, rfl, hreq⟩
    simp only [main_run, hf, ho]

theorem fetch_open_meteo_exhaust_and_main_witness :
    fetch_open_meteo defaultConfig LAT LON 3 (fun j => MOutcome.exn j) dt0 =
      ⟨PyResult.raised 2, 3, [2, 2]⟩ ∧
    ∃ m, main_run defaultConfig "k" "440300" (fun j => MOutcome.exn j)
        (fun _ => QOutcome.exn) dt0 Option.none = PyResult.ok m ∧
      LogEvent.omErr 2 ∈ m.logs ∧
      m.qrun = fetch_qweather defaultConfig "k" "440300" 3 (fun _ => QOutcome.exn) dt0 ∧
      1 ≤ m.qrun.requests :=
  fetch_open_meteo_exhaust_and_main defaultConfig "k" "440300" (fun j => j)
    (fun j => MOutcome.exn j) (fun _ => QOutcome.exn) dt0 Option.none
    (fun j hj => rfl) (by decide)

/-- C3 counterexample: the claim maps every non-integer input to its
best-effort string form, but the numeric *string* `"3"` — a non-integer
input — is converted by `int()` and decoded through the table instead:
`decode_weather("3")` is the table entry for code 3, not `"3"`. -/
theorem decode_weather_numeric_string_cex :
    decode_weather (PyVal.vstr "3") = "多云" ∧ ("多云" : String) ≠ "3" := by
  constructor
  · decide
  · decide

/-- C3 amended: `decode_weather` is total (always yields a string); an
integer in the static table yields that entry's description; any other
integer yields `未知(<code>)`; input on which the integer conversion fails
(every non-numeric input) yields its best-effort string form; absent input
yields the empty string.  (Numeric strings and floats convert and are treated
as integer codes — the one correction to the claim.) -/
theorem decode_weather_total_mapping :
    (∀ v, ∃ out : String, decode_weather v = out) ∧
    (∀ n d, WMO_WEATHER_CODES.lookup n = some d → decode_weather (PyVal.vint n) = d) ∧
    (∀ n, WMO_WEATHER_CODES.lookup n = Option.none →
      decode_weather (PyVal.vint n) = "未知(" ++ toString n ++ ")") ∧
    (∀ s, pyIntParse s = Option.none → decode_weather (PyVal.vstr s) = s) ∧
    decode_weather PyVal.none = "" := by
  refine ⟨fun v => ⟨decode_weather v, rfl⟩, ?_, ?_, ?_, rfl⟩
  · intro n d h
    show (WMO_WEATHER_CODES.lookup n).getD _ = d
    rw [h]
    rfl
  · intro n h
    show (WMO_WEATHER_CODES.lookup n).getD _ = _
    rw [h]
    rfl
  · intro s h
    simp only [decode_weather, pyToInt, h]
    rfl

theorem decode_weather_total_mapping_witness :
    decode_weather (PyVal.vint 0) = "晴" ∧
    decode_weather (PyVal.vint 42) = "未知(" ++ toString (42 : ℤ) ++ ")" ∧
    decode_weather (PyVal.vstr "abc") = "abc" :=
  ⟨decode_weather_total_mapping.2.1 0 "晴" (by decide),
   decode_weather_total_mapping.2.2.1 42 (by decide),
   decode_weather_total_mapping.2.2.2.1 "abc" (by decide)⟩

/-- C4: QWeather location normalization maps `"114.0576,22.5431"` to
`"114.06,22.54"` (each coordinate rounded to two decimals), and any string
that does not parse as two comma-separated numbers — such as `"440300"` —
passes through unchanged. -/
theorem qweather_location_normalization :
    normalize_qweather_location "114.0576,22.5431" = "114.06,22.54" ∧
    normalize_qweather_location "440300" = "440300" ∧
    (∀ s, parsesTwoNums s = false → normalize_qweather_location s = s) := by
  refine ⟨by decide, by decide, ?_⟩
  intro s h
  rw [normalize_qweather_location]
  rw [parsesTwoNums] at h
  rcases hs : splitOnComma s.data with _ | ⟨a, rest1⟩
  · rfl
  · rcases rest1 with _ | ⟨b, rest2⟩
    · rfl
    · rcases rest2 with _ | ⟨c, rest3⟩
      · rw [hs] at h
        replace h : ((pyFloatOfChars a).isSome && (pyFloatOfChars b).isSome) = false := h
        show (match pyFloatOfChars a, pyFloatOfChars b with
          | some qa, some qb => fmt2 qa ++ "," ++ fmt2 qb
          | _, _ => s) = s
        rcases ha : pyFloatOfChars a with _ | qa <;> rcases hb : pyFloatOfChars b with _ | qb <;>
          try rfl
        rw [ha, hb] at h
        simp at h
      · rfl

theorem qweather_location_normalization_witness :
    normalize_qweather_location "hello" = "hello" :=
  qweather_location_normalization.2.2 "hello" (by decide)

/-- C7: `kmh_to_mps(36.0)` is exactly `10.0` (the identity `36 / 3.6 = 10`
holds exactly both for rationals and for IEEE-754 doubles), and an absent
input propagates to an absent output. -/
theorem kmh_to_mps_exact :
    kmh_to_mps (PyVal.vfloat 36) = some 10 ∧ kmh_to_mps PyVal.none = Option.none := by
  constructor
  · show some ((36 : ℚ) / 3.6) = some 10
    norm_num
  · rfl

theorem rowCells_fieldnames (r : Row) :
    rowCells fieldnames r =
      [cellStr r.ts_iso, cellStr r.ts_obs_iso, cellStr r.location_name, cellStr r.provider,
       cellStr r.temp_c, cellStr r.precip_mm_1h, cellStr r.humidity_pct,
       cellStr r.wind_speed_mps, cellStr r.wind_dir_deg, cellStr r.pressure_hpa,
       cellStr r.weather_code_or_text, cellStr r.weather_desc] := rfl

/-- C5: every row either provider hands to the sink has a non-empty
collection timestamp and a non-empty provider identifier; all six numeric
fields are a valid float or explicitly absent, never a malformed string; and
every append writes the cells in exactly the fixed `fieldnames` order the
header uses. -/
theorem row_and_schema_invariants :
    (∀ cfg dt cur,
      (mkOpenMeteoRow cfg dt cur).ts_iso = PyVal.vstr (now_cn_iso dt) ∧
      now_cn_iso dt ≠ "" ∧
      (mkOpenMeteoRow cfg dt cur).provider = PyVal.vstr "open-meteo" ∧
      numericOrAbsent (mkOpenMeteoRow cfg dt cur).temp_c ∧
      numericOrAbsent (mkOpenMeteoRow cfg dt cur).precip_mm_1h ∧
      numericOrAbsent (mkOpenMeteoRow cfg dt cur).humidity_pct ∧
      numericOrAbsent (mkOpenMeteoRow cfg dt cur).wind_speed_mps ∧
      numericOrAbsent (mkOpenMeteoRow cfg dt cur).wind_dir_deg ∧
      numericOrAbsent (mkOpenMeteoRow cfg dt cur).pressure_hpa) ∧
    (∀ cfg dt n,
      (mkQweatherRow cfg dt n).ts_iso = PyVal.vstr (now_cn_iso dt) ∧
      now_cn_iso dt ≠ "" ∧
      (mkQweatherRow cfg dt n).provider = PyVal.vstr "qweather" ∧
      numericOrAbsent (mkQweatherRow cfg dt n).temp_c ∧
      numericOrAbsent (mkQweatherRow cfg dt n).precip_mm_1h ∧
      numericOrAbsent (mkQweatherRow cfg dt n).humidity_pct ∧
      numericOrAbsent (mkQweatherRow cfg dt n).wind_speed_mps ∧
      numericOrAbsent (mkQweatherRow cfg dt n).wind_dir_deg ∧
      numericOrAbsent (mkQweatherRow cfg dt n).pressure_hpa) ∧
    (∀ fs r fns, write_csv_row fs r fns = ensure_csv_header fs fns ++ [rowCells fns r]) ∧
    (∀ r, rowCells fieldnames r = fieldnames.map (fun k => cellStr (rowGet r k))) ∧
    (∀ r, (rowCells fieldnames r).length = fieldnames.length) := by
  refine ⟨?_, ?_, fun fs r fns => rfl, fun r => rfl, fun r => rfl⟩
  · intro cfg dt cur
    exact ⟨rfl, now_cn_iso_ne_empty dt, rfl,
      optToPy_numericOrAbsent _, optToPy_numericOrAbsent _, optToPy_numericOrAbsent _,
      optToPy_numericOrAbsent _, optToPy_numericOrAbsent _, optToPy_numericOrAbsent _⟩
  · intro cfg dt n
    exact ⟨rfl, now_cn_iso_ne_empty dt, rfl,
      optToPy_numericOrAbsent _, optToPy_numericOrAbsent _, optToPy_numericOrAbsent _,
      optToPy_numericOrAbsent _, optToPy_numericOrAbsent _, optToPy_numericOrAbsent _⟩

theorem openMeteoRow_cells_ne_fieldnames (cfg : Config) (dt : DateTime) (cur : MCur) :
    rowCells fieldnames (mkOpenMeteoRow cfg dt cur) ≠ fieldnames := by
  intro h
  have h3 := congrArg (fun l => l.get? 3) h
  have hl : (rowCells fieldnames (mkOpenMeteoRow cfg dt cur)).get? 3 = some "open-meteo" := rfl
  have hr : (fieldnames.get? 3) = some "provider" := rfl
  simp only at h3
  rw [hl, hr] at h3
  exact absurd (Option.some.inj h3) (by decide)

theorem qweatherRow_cells_ne_fieldnames (cfg : Config) (dt : DateTime) (n : QNow) :
    rowCells fieldnames (mkQweatherRow cfg dt n) ≠ fieldnames := by
  intro h
  have h3 := congrArg (fun l => l.get? 3) h
  have hl : (rowCells fieldnames (mkQweatherRow cfg dt n)).get? 3 = some "qweather" := rfl
  have hr : (fieldnames.get? 3) = some "provider" := rfl
  simp only at h3
  rw [hl, hr] at h3
  exact absurd (Option.some.inj h3) (by decide)

/-- C6: schema creation is idempotent — a second `ensure_csv_header` on an
existing destination changes nothing, so two calls starting from a missing
file leave exactly one header record — and a subsequent append adds a data
row without duplicating the header (shown for both providers' rows). -/
theorem ensure_csv_header_idempotent :
    (∀ fs fns, ensure_csv_header (some (ensure_csv_header fs fns)) fns =
      ensure_csv_header fs fns) ∧
    (∀ fns, ensure_csv_header (some (ensure_csv_header Option.none fns)) fns = [fns]) ∧
    (∀ fns, (ensure_csv_header (some (ensure_csv_header Option.none fns)) fns).count fns = 1) ∧
    (∀ cfg dt cur,
      ((write_csv_row (some (ensure_csv_header Option.none fieldnames))
        (mkOpenMeteoRow cfg dt cur) fieldnames).count fieldnames) = 1) ∧
    (∀ cfg dt n,
      ((write_csv_row (some (ensure_csv_header Option.none fieldnames))
        (mkQweatherRow cfg dt n) fieldnames).count fieldnames) = 1) := by
  refine ⟨fun fs fns => by cases fs <;> rfl, fun fns => rfl,
    fun fns => by simp [ensure_csv_header], ?_, ?_⟩
  · intro cfg dt cur
    simp [write_csv_row, ensure_csv_header, List.count_cons,
      openMeteoRow_cells_ne_fieldnames cfg dt cur]
  · intro cfg dt n
    simp [write_csv_row, ensure_csv_header, List.count_cons,
      qweatherRow_cells_ne_fieldnames cfg dt n]

/-- C8 counterexample: the claim says the QWeather client authenticates via
an HTTP request header against an environment-configured host, but the
request built for a concrete key carries no headers at all — the key travels
in the URL query string — and the URL's host is the built-in literal
`devapi.qweather.com` (the configuration, lines 18-22, has no host field). -/
theorem qweather_auth_header_cex :
    (qweather_request defaultConfig "SECRETKEY" "440300").headers = [] ∧
    (qweather_request defaultConfig "SECRETKEY" "440300").url =
      "https://devapi.qweather.com/v7/weather/now?key=SECRETKEY&location=440300&lang=zh&unit=m" := by
  constructor
  · rfl
  · decide

/-- C8 amended: on every attempt the QWeather client sends a GET with *no*
headers; the API key is carried as the `key` query parameter of a URL whose
host is the fixed built-in `devapi.qweather.com`; only the language and the
unit system come from the environment-sourced configuration (besides the key
and location passed in from it). -/
theorem qweather_request_shape :
    ∀ cfg api_key location,
      qweather_request cfg api_key location =
        ⟨"https://devapi.qweather.com/v7/weather/now?key=" ++ api_key ++
          "&location=" ++ normalize_qweather_location location ++
          "&lang=" ++ cfg.qweather_lang ++ "&unit=" ++ cfg.qweather_unit, []⟩ :=
  fun cfg api_key location => rfl

/-- C9: calling either fetch routine with a non-positive `retries` (and, for
QWeather, a non-empty key) returns `None` without issuing any HTTP request
and without raising: the loop body never runs and control falls off the end. -/
theorem nonpositive_retries_returns_none :
    ∀ cfg key loc lat lon (r : ℤ) matt qatt dt, r ≤ 0 → key ≠ "" →
    fetch_open_meteo cfg lat lon r matt dt = ⟨PyResult.ok Option.none, 0, []⟩ ∧
    fetch_qweather cfg key loc r qatt dt = ⟨PyResult.ok Option.none, 0, []⟩ := by
  intro cfg key loc lat lon r matt qatt dt hr hk
  have h0 : r.toNat = 0 := by omega
  constructor
  · rw [fetch_open_meteo, h0]
    rfl
  · rw [fetch_qweather, if_neg hk, h0]
    rfl

theorem nonpositive_retries_returns_none_witness :
    fetch_open_meteo defaultConfig LAT LON (-1) (fun j => MOutcome.exn j) dt0 =
      ⟨PyResult.ok Option.none, 0, []⟩ ∧
    fetch_qweather defaultConfig "k" "440300" (-1) (fun _ => QOutcome.exn) dt0 =
      ⟨PyResult.ok Option.none, 0, []⟩ :=
  nonpositive_retries_returns_none defaultConfig "k" "440300" LAT LON (-1)
    (fun j => MOutcome.exn j) (fun _ => QOutcome.exn) dt0 (by omega) (by decide)

/-- C10: when a successful Open-Meteo response's `current` object lacks
`weather_code`, the row's `weather_code_or_text` is the literal string
`"None"` (Python `str(None)` — not empty and not absent) while
`weather_desc` is the empty string; the fetch returns exactly that row. -/
theorem missing_weather_code_renders_None :
    ∀ cfg lat lon (r : ℤ) att dt cur, cur.weather_code = PyVal.none →
      att 0 = MOutcome.success cur → 1 ≤ r →
      (mkOpenMeteoRow cfg dt cur).weather_code_or_text = PyVal.vstr "None" ∧
      (mkOpenMeteoRow cfg dt cur).weather_desc = PyVal.vstr "" ∧
      fetch_open_meteo cfg lat lon r att dt =
        ⟨PyResult.ok (some (mkOpenMeteoRow cfg dt cur)), 1, []⟩ := by
  intro cfg lat lon r att dt cur hwc h0 hr
  refine ⟨?_, ?_, ?_⟩
  · show PyVal.vstr (pyStr cur.weather_code) = PyVal.vstr "None"
    rw [hwc]
    rfl
  · show PyVal.vstr (decode_weather cur.weather_code) = PyVal.vstr ""
    rw [hwc]
    rfl
  · rw [fetch_open_meteo]
    exact open_meteo_loop_first_success cfg dt att cur r.toNat 0 h0 (by omega)

theorem missing_weather_code_renders_None_witness :
    (mkOpenMeteoRow defaultConfig dt0 curNone).weather_code_or_text = PyVal.vstr "None" ∧
    (mkOpenMeteoRow defaultConfig dt0 curNone).weather_desc = PyVal.vstr "" ∧
    fetch_open_meteo defaultConfig LAT LON 3 (fun _ => MOutcome.success curNone) dt0 =
      ⟨PyResult.ok (some (mkOpenMeteoRow defaultConfig dt0 curNone)), 1, []⟩ :=
  missing_weather_code_renders_None defaultConfig LAT LON 3
    (fun _ => MOutcome.success curNone) dt0 curNone rfl rfl (by omega)
